import Mathlib

/-!
Verification of the AuraAI backend (src/backend/providers.py, src/backend/main.py).

The Python code is shallowly embedded: pure fragments become Lean functions,
the process-wide dictionaries become explicit association lists threaded through
the handlers, and calls out to vendor SDKs (network requests) become explicit
outcome parameters.  Python string operations are modelled over `List Char`
(one entry per code point, matching Python `str` semantics for `len`, slicing,
`lower` on ASCII, `split()` and substring tests).
-/

namespace AuraAI

/-! ## Python string primitives (modelled over code points) -/

/-- Python `s.lower()` (ASCII case mapping, one char at a time). -/
def pyLower (s : String) : String :=
  String.mk (s.data.map Char.toLower)

/-- Python `len(s)`: number of code points. -/
def pyLen (s : String) : Nat :=
  s.data.length

/-- Python `s[:n]` for `n ≥ 0`: the first `n` code points. -/
def pyTake (s : String) (n : Nat) : String :=
  String.mk (s.data.take n)

/-- Python `pat in s`: substring test. -/
def pyContains (s pat : String) : Bool :=
  decide (pat.data <:+: s.data)

/-- Helper of `pySplitWs`: walks the characters, `acc` holds the current word
reversed.  Runs of whitespace produce no empty words, matching Python
`str.split()` with no separator argument. -/
def splitWsAux : List Char → List Char → List String
  | [], acc => if acc.isEmpty then [] else [String.mk acc.reverse]
  | c :: cs, acc =>
    if c.isWhitespace then
      if acc.isEmpty then splitWsAux cs []
      else String.mk acc.reverse :: splitWsAux cs []
    else splitWsAux cs (c :: acc)

/-- Python `s.split()`: split on whitespace runs, dropping empty words. -/
def pySplitWs (s : String) : List String :=
  splitWsAux s.data []

/-- Python `" ".join(xs)`. -/
def pyJoinSpace : List String → String
  | [] => ""
  | [x] => x
  | x :: y :: xs => x ++ " " ++ pyJoinSpace (y :: xs)

/-- Is `b` a UTF-8 continuation byte (`0x80..0xBF`)? -/
def isContByte (b : Nat) : Bool :=
  0x80 ≤ b && b < 0xC0

/-- Strict UTF-8 decoding of a byte sequence, modelling Python
`bytes.decode(utf8)`: rejects overlong encodings, surrogate code points,
out-of-range leads (`0xF5..0xFF`) and truncated sequences. -/
def utf8Decode : List Nat → Option (List Char)
  | [] => some []
  | b :: rest =>
    if b < 0x80 then
      match utf8Decode rest with
      | some cs => some (Char.ofNat b :: cs)
      | none => none
    else if b < 0xC2 then
      none
    else if b < 0xE0 then
      match rest with
      | c1 :: rest1 =>
        if isContByte c1 then
          match utf8Decode rest1 with
          | some cs => some (Char.ofNat ((b - 0xC0) * 0x40 + (c1 - 0x80)) :: cs)
          | none => none
        else none
      | [] => none
    else if b < 0xF0 then
      match rest with
      | c1 :: c2 :: rest2 =>
        if isContByte c1 && isContByte c2 then
          let code := (b - 0xE0) * 0x1000 + (c1 - 0x80) * 0x40 + (c2 - 0x80)
          if 0x800 ≤ code ∧ ¬(0xD800 ≤ code ∧ code ≤ 0xDFFF) then
            match utf8Decode rest2 with
            | some cs => some (Char.ofNat code :: cs)
            | none => none
          else none
        else none
      | _ => none
    else if b < 0xF5 then
      match rest with
      | c1 :: c2 :: c3 :: rest3 =>
        if isContByte c1 && isContByte c2 && isContByte c3 then
          let code := (b - 0xF0) * 0x40000 + (c1 - 0x80) * 0x1000 +
            (c2 - 0x80) * 0x40 + (c3 - 0x80)
          if 0x10000 ≤ code ∧ code ≤ 0x10FFFF then
            match utf8Decode rest3 with
            | some cs => some (Char.ofNat code :: cs)
            | none => none
          else none
        else none
      | _ => none
    else none

/-- Python `contents.decode(utf8)` as a total function:
`some` on valid UTF-8, `none` where Python raises `UnicodeDecodeError`. -/
def pyDecodeUtf8 (bytes : List Nat) : Option String :=
  match utf8Decode bytes with
  | some cs => some (String.mk cs)
  | none => none

/-! ## Provider model (providers.py)

Each vendor adapter is reduced to its class (which fixes the methods it
defines) together with the Boolean outcome its `is_available` probe produces
for the request at hand; every adapter's `is_available` catches all exceptions
and returns a Bool, so the probe itself never raises. -/

/-- The five adapter classes defined in providers.py. -/
inductive ProviderClass where
  | gemini
  | openai
  | anthropic
  | stability
  | elevenlabs
  deriving DecidableEq

/-- Python class name of an adapter class (used in AttributeError messages). -/
def ProviderClass.pyName : ProviderClass → String
  | .gemini => "GeminiProvider"
  | .openai => "OpenAIProvider"
  | .anthropic => "AnthropicProvider"
  | .stability => "StabilityAIProvider"
  | .elevenlabs => "ElevenLabsProvider"

/-- A constructed adapter instance: its class and the result of its
`is_available` liveness probe for the current request. -/
structure Adapter where
  cls : ProviderClass
  available : Bool
  deriving DecidableEq

/-- The `AIProviderManager` state: the `providers` dict (insertion-ordered,
keys unique as built by `init_providers`) and the optional primary name. -/
structure AIProviderManager where
  providers : List (String × Adapter)
  primary_provider : Option String
  deriving DecidableEq

/-- The environment read by `initialize_providers` (providers.py 301-348):
which API keys are set (Python truthiness of the env var), which optional
modules imported, whether each vendor constructor succeeds, the availability
each adapter will report, and `PRIMARY_AI_PROVIDER`. -/
structure Env where
  gemini_key : Bool
  openai_key : Bool
  anthropic_key : Bool
  stability_key : Bool
  elevenlabs_key : Bool
  openai_module : Bool
  anthropic_module : Bool
  gemini_ctor_ok : Bool
  openai_ctor_ok : Bool
  anthropic_ctor_ok : Bool
  gemini_avail : Bool
  openai_avail : Bool
  anthropic_avail : Bool
  stability_avail : Bool
  primary_env : Option String
  deriving DecidableEq

/-- `AIProviderManager.initialize_providers` (providers.py 301-348).  Each
vendor block is wrapped in try/except, so a failing constructor only skips
that entry.  The ElevenLabs block reads `AIProvider.ELEVENLABS`, a member the
`AIProvider` enum does not define; the resulting AttributeError is caught by
the except clause, so the elevenlabs adapter is never registered.
`StabilityAIProvider.__init__` only assigns a constant field and cannot fail. -/
def init_providers (env : Env) : AIProviderManager :=
  let ps : List (String × Adapter) := []
  let ps := if env.gemini_key && env.gemini_ctor_ok then
      ps ++ [("gemini", ⟨.gemini, env.gemini_avail⟩)] else ps
  let ps := if env.openai_key && env.openai_module && env.openai_ctor_ok then
      ps ++ [("openai", ⟨.openai, env.openai_avail⟩)] else ps
  let ps := if env.anthropic_key && env.anthropic_module && env.anthropic_ctor_ok then
      ps ++ [("anthropic", ⟨.anthropic, env.anthropic_avail⟩)] else ps
  let ps := if env.stability_key then
      ps ++ [("stability", ⟨.stability, env.stability_avail⟩)] else ps
  let primary := env.primary_env.getD "gemini"
  let primary_provider :=
    if (ps.lookup primary).isSome then some primary
    else
      match ps with
      | [] => none
      | (k, _) :: _ => some k
  ⟨ps, primary_provider⟩

/-- The Python-truthy explicit-name lookup at the top of `get_provider`:
`provider_name and provider_name in self.providers`. -/
def namedLookup (m : AIProviderManager) (provider_name : Option String) : Option Adapter :=
  match provider_name with
  | some n => if n = "" then none else m.providers.lookup n
  | none => none

/-- The primary-provider lookup in `get_provider`:
`self.primary_provider and self.primary_provider in self.providers`. -/
def primaryLookup (m : AIProviderManager) : Option Adapter :=
  match m.primary_provider with
  | some pr => if pr = "" then none else m.providers.lookup pr
  | none => none

/-- `AIProviderManager.get_provider` (providers.py 350-358): the named adapter
if present, else the primary adapter, else raise. -/
def AIProviderManager.get_provider (m : AIProviderManager)
    (provider_name : Option String) : Except String Adapter :=
  match namedLookup m provider_name with
  | some p => Except.ok p
  | none =>
    match primaryLookup m with
    | some p => Except.ok p
    | none => Except.error "No AI providers configured"

/-- The preference loop shared by `get_text_provider` and
`get_image_provider`: first name whose adapter is present and whose
`is_available()` returns true.  (The `except: continue` around the probe is
dead code: every adapter's `is_available` swallows its own exceptions.) -/
def firstAvailable (m : AIProviderManager) : List String → Option Adapter
  | [] => none
  | n :: rest =>
    match m.providers.lookup n with
    | some provider =>
      if provider.available then some provider else firstAvailable m rest
    | none => firstAvailable m rest

/-- Text preference order (providers.py line 372). -/
def textPreferenceOrder : List String := ["openai", "anthropic", "gemini"]

/-- Image preference order (providers.py line 394). -/
def imagePreferenceOrder : List String := ["stability", "openai", "gemini"]

/-- `AIProviderManager.get_text_provider` (providers.py 360-381).  With a
truthy explicit name: resolve via `get_provider`; a raise becomes `return
None`; a resolved-but-unavailable adapter falls through into the preference
loop (the explicit branch has no `return None` of its own). -/
def AIProviderManager.get_text_provider (m : AIProviderManager)
    (provider_name : Option String) : Option Adapter :=
  match provider_name with
  | some n =>
    if n = "" then firstAvailable m textPreferenceOrder
    else
      match m.get_provider (some n) with
      | Except.ok p =>
        if p.available then some p else firstAvailable m textPreferenceOrder
      | Except.error _ => none
  | none => firstAvailable m textPreferenceOrder

/-- `AIProviderManager.get_image_provider` (providers.py 383-403): same shape
as the text lookup with the image preference order. -/
def AIProviderManager.get_image_provider (m : AIProviderManager)
    (provider_name : Option String) : Option Adapter :=
  match provider_name with
  | some n =>
    if n = "" then firstAvailable m imagePreferenceOrder
    else
      match m.get_provider (some n) with
      | Except.ok p =>
        if p.available then some p else firstAvailable m imagePreferenceOrder
      | Except.error _ => none
  | none => firstAvailable m imagePreferenceOrder

/-- Default branch of `get_voice_provider` (providers.py 415-433):
`provider = providers.get("huggingface") or providers.get("openai")`; prefer
elevenlabs when configured and available; else probe `provider`; else None. -/
def voiceDefault (m : AIProviderManager) : Option Adapter :=
  let provider :=
    match m.providers.lookup "huggingface" with
    | some p => some p
    | none => m.providers.lookup "openai"
  let fallback :=
    match provider with
    | some p => if p.available then some p else none
    | none => none
  match m.providers.lookup "elevenlabs" with
  | some candidate =>
    if candidate.available then some candidate else fallback
  | none => fallback

/-- `AIProviderManager.get_voice_provider` (providers.py 405-433). -/
def AIProviderManager.get_voice_provider (m : AIProviderManager)
    (provider_name : Option String) : Option Adapter :=
  match provider_name with
  | some n =>
    if n = "" then voiceDefault m
    else
      match m.get_provider (some n) with
      | Except.ok p => if p.available then some p else voiceDefault m
      | Except.error _ => none
  | none => voiceDefault m

/-- Default branch of `get_video_provider` (providers.py 446-455): gemini is
the only video-capable candidate. -/
def videoDefault (m : AIProviderManager) : Option Adapter :=
  match m.providers.lookup "gemini" with
  | some candidate => if candidate.available then some candidate else none
  | none => none

/-- `AIProviderManager.get_video_provider` (providers.py 435-455). -/
def AIProviderManager.get_video_provider (m : AIProviderManager)
    (provider_name : Option String) : Option Adapter :=
  match provider_name with
  | some n =>
    if n = "" then videoDefault m
    else
      match m.get_provider (some n) with
      | Except.ok p => if p.available then some p else videoDefault m
      | Except.error _ => none
  | none => videoDefault m

/-! ## Adapter text generation (providers.py, per vendor)

The vendor SDK call inside each adapter's try block is abstracted as an
explicit outcome value shaped like the vendor response object the code
inspects; the adapter logic around it is translated literally. -/

/-- Outcome of `model.generate_content` for Gemini: the response object's
`.text` (`none` models Python `None`), or the exception raised. -/
inductive GeminiVendorResult where
  | success (text : Option String)
  | failure (err : String)
  deriving DecidableEq

/-- `GeminiProvider.generate_text` (providers.py 67-79):
`return response.text if response.text else "No response generated"`,
errors wrapped as `Gemini API error: ...`.  Python truthiness: both `None`
and the empty string select the placeholder. -/
def GeminiProvider.generate_text : GeminiVendorResult → Except String String
  | .success (some t) => if t = "" then Except.ok "No response generated" else Except.ok t
  | .success none => Except.ok "No response generated"
  | .failure e => Except.error ("Gemini API error: " ++ e)

/-- Outcome of `client.chat.completions.create` for OpenAI: the list of
choices, each carrying `message.content` (nullable), or the exception. -/
inductive OpenAIVendorResult where
  | success (choices : List (Option String))
  | failure (err : String)
  deriving DecidableEq

/-- `OpenAIProvider.generate_text` (providers.py 113-124):
`return response.choices[0].message.content` with no empty-content handling;
an empty choices list raises IndexError inside the try block and is wrapped
like any other error. -/
def OpenAIProvider.generate_text : OpenAIVendorResult → Except String (Option String)
  | .success (c :: _) => Except.ok c
  | .success [] => Except.error ("OpenAI API error: list index out of range")
  | .failure e => Except.error ("OpenAI API error: " ++ e)

/-- Outcome of `client.messages.create` for Anthropic: the `content` block
texts, or the exception. -/
inductive AnthropicVendorResult where
  | success (content : List String)
  | failure (err : String)
  deriving DecidableEq

/-- `AnthropicProvider.generate_text` (providers.py 158-168):
`return message.content[0].text` with no empty-content handling. -/
def AnthropicProvider.generate_text : AnthropicVendorResult → Except String String
  | .success (t :: _) => Except.ok t
  | .success [] => Except.error ("Anthropic API error: list index out of range")
  | .failure e => Except.error ("Anthropic API error: " ++ e)

/-! ## Class attribute tables (for Python attribute lookup)

Python resolves `obj.name` through the methods the class and its bases
define; a miss raises AttributeError.  These lists transcribe the `def`s of
each class in the source. -/

/-- Methods defined by `BaseAIProvider` (providers.py 37-56). -/
def BaseAIProvider.definedMethods : List String :=
  ["__init__", "generate_text", "generate_image", "is_available"]

/-- Methods defined by each adapter class (providers.py 59-290), beyond which
attribute lookup falls back to `BaseAIProvider`. -/
def ProviderClass.definedMethods : ProviderClass → List String
  | .gemini => ["__init__", "generate_text", "generate_image", "is_available"]
  | .openai => ["__init__", "generate_text", "generate_image", "is_available"]
  | .anthropic => ["__init__", "generate_text", "generate_image", "is_available"]
  | .stability => ["__init__", "generate_text", "generate_image", "is_available"]
  | .elevenlabs =>
    ["__init__", "generate_text", "generate_image", "text_to_speech", "is_available"]

/-- Does attribute lookup on an adapter instance resolve `name`? -/
def adapterHasMethod (cls : ProviderClass) (name : String) : Bool :=
  (cls.definedMethods).contains name || BaseAIProvider.definedMethods.contains name

/-- Methods defined by `AIProviderManager` (providers.py 293-473). -/
def AIProviderManager.definedMethods : List String :=
  ["__init__", "initialize_providers", "get_provider", "get_text_provider",
   "get_image_provider", "get_voice_provider", "get_video_provider",
   "list_available_providers", "get_provider_info"]

/-- A Python exception escaping a handler-level model. -/
inductive PyError where
  | attributeError (msg : String)
  | typeError (msg : String)
  deriving DecidableEq

/-- Module initialization of main.py (lines 47-53): construct the manager
(`initialize_providers` catches every per-vendor exception, so construction
itself always succeeds), then evaluate
`provider_manager.is_any_provider_available()`.  The attribute is looked up
in the methods `AIProviderManager` defines; on a miss the call raises before
the availability test runs.  Were the attribute present, startup would go on
to the `ValueError` gate — that branch is kept abstract as `started`. -/
inductive StartupOutcome where
  | started (provider_manager : AIProviderManager)
  | raised (e : PyError)
  deriving DecidableEq

/-- main.py module initialization, lines 47-53. -/
def backendStartup (env : Env) : StartupOutcome :=
  let provider_manager := init_providers env
  if AIProviderManager.definedMethods.contains "is_any_provider_available" then
    StartupOutcome.started provider_manager
  else
    StartupOutcome.raised
      (PyError.attributeError
        "AIProviderManager object has no attribute is_any_provider_available")

/-! ## Memory store (main.py) -/

/-- One entry of `memory_store` as written by `store_memory` (main.py
115-123): the stored text, the metadata dict (values may be Python `None`),
the ISO timestamp, and the `embeddings` field (a copy of the text). -/
structure MemoryRecord where
  text : String
  metadata : List (String × Option String)
  timestamp : String
  embeddings : String
  deriving DecidableEq

/-- The process-wide `memory_store` dict: insertion-ordered, keys unique. -/
abbrev MemoryStore := List (String × MemoryRecord)

/-- `store_memory` (main.py 115-123): dict upsert, stamping `now`.  An
existing id is overwritten in place (Python dict assignment keeps the key's
original position); a new id is appended. -/
def store_memory (store : MemoryStore) (memory_id : String) (text : String)
    (metadata : List (String × Option String)) (now : String) : MemoryStore :=
  let record : MemoryRecord := ⟨text, metadata, now, text⟩
  if (store.lookup memory_id).isSome then
    store.map (fun kv => if kv.1 = memory_id then (memory_id, record) else kv)
  else
    store ++ [(memory_id, record)]

/-- The per-record match test of `search_memory`:
`any(word in text for word in query_lower.split())` against the record's
lowercased text. -/
def recordMatches (query_lower : String) (r : MemoryRecord) : Bool :=
  (pySplitWs query_lower).any (fun word => pyContains (pyLower r.text) word)

/-- `search_memory` (main.py 125-138): empty store short-circuits to `""`;
otherwise collect the texts of matching records in store order and join the
first `top_k` with spaces. -/
def search_memory (store : MemoryStore) (query : String) (top_k : Nat) : String :=
  if store.isEmpty then ""
  else
    let query_lower := pyLower query
    let results := store.foldl
      (fun acc kv => if recordMatches query_lower kv.2 then acc ++ [kv.2.text] else acc) []
    pyJoinSpace (results.take top_k)

/-- The search contract as the spec words it: the space-joined concatenation
of the first `top_k` stored texts, in insertion order, whose lowercased text
contains at least one word of the lowercased whitespace-split query as a
substring. -/
def searchSpec (store : MemoryStore) (query : String) (top_k : Nat) : String :=
  pyJoinSpace
    (((store.filter (fun kv => recordMatches (pyLower query) kv.2)).map
      (fun kv => kv.2.text)).take top_k)

/-- An HTTP response as seen by the client: status code and the body's
`detail`/`message` payload. -/
structure HttpResponse where
  status : Nat
  detail : String
  deriving DecidableEq

/-- `delete_memory` (main.py 277-287).  A present id is removed and a success
body returned.  An absent id raises `HTTPException(404, "Memory not found")`
inside the handler's own try block; the `except Exception` clause catches it
(HTTPException is an Exception subclass) and re-raises
`HTTPException(500, "Memory deletion failed: " + str(e))`, and `str` of an
HTTPException renders as `404: Memory not found` — so the client receives a
500, not the 404. -/
def delete_memory (store : MemoryStore) (memory_id : String) :
    MemoryStore × HttpResponse :=
  if (store.lookup memory_id).isSome then
    (store.filter (fun kv => kv.1 ≠ memory_id),
      ⟨200, "Memory deleted: " ++ memory_id⟩)
  else
    (store, ⟨500, "Memory deletion failed: 404: Memory not found"⟩)

/-! ## Request handlers (main.py) -/

/-- One element of a `ChatRequest.messages` list. -/
structure MessageRequest where
  role : String
  content : String
  deriving DecidableEq

/-- The `/chat` request body (main.py 71-77). -/
structure ChatRequest where
  messages : List MessageRequest
  context : Option String
  use_grounding : Bool
  use_memory : Bool
  target_language : String
  provider : Option String
  deriving DecidableEq

/-- One `chat_history` entry (main.py 320-324). -/
structure ChatEntry where
  timestamp : String
  request : ChatRequest
  response : String
  deriving DecidableEq

/-- The `/chat` handler (main.py 306-344) downstream of
`generate_text_response`, whose outcome (generated text, or the exception it
raised) is passed in as `genResult`.  On success the exchange is appended to
`chat_history` and, when the request carries messages whose last content is
longer than 20 characters, that content is auto-committed to memory under the
key `chat-<timestamp>`.  Any exception is mapped to a 500. -/
def chat (store : MemoryStore) (history : List ChatEntry) (req : ChatRequest)
    (genResult : Except String String) (now : String) :
    MemoryStore × List ChatEntry × HttpResponse :=
  match genResult with
  | Except.error e => (store, history, ⟨500, "Chat processing failed: " ++ e⟩)
  | Except.ok response =>
    let history2 := history ++ [⟨now, req, response⟩]
    let store2 :=
      match req.messages.getLast? with
      | some lastMsg =>
        if pyLen lastMsg.content > 20 then
          store_memory store ("chat-" ++ now) lastMsg.content
            [("role", some "user"), ("language", some req.target_language),
             ("provider", req.provider)] now
        else store
      | none => store
    (store2, history2, ⟨200, response⟩)

/-- The `/synthesize` request body (main.py 99-102). -/
structure SynthesisRequest where
  content : String
  target_language : String
  provider : Option String
  deriving DecidableEq

/-- Positional/keyword parameters accepted by `generate_synthesis`
(main.py 206): `(content, target_language="English")` — no `provider_name`,
no `**kwargs`. -/
def generateSynthesisParams : List String := ["content", "target_language"]

/-- Keyword arguments the `/synthesize` handler passes to
`generate_synthesis` (main.py 350-354). -/
def synthesizeCallKeywords : List String :=
  ["content", "target_language", "provider_name"]

/-- The `/synthesize` handler (main.py 346-364).  Python checks the keyword
arguments against the callee's signature before running its body; an
unexpected keyword raises TypeError, which the handler's except clause maps
to a 500 `Synthesis failed: ...`.  Were the call well-formed, the handler
would return the synthesis — kept abstract behind the (never taken) match
arm. -/
def synthesize (_req : SynthesisRequest) (synthesisResult : String) : HttpResponse :=
  if synthesizeCallKeywords.all (fun k => generateSynthesisParams.contains k) then
    ⟨200, synthesisResult⟩
  else
    ⟨500, "Synthesis failed: generate_synthesis() got an unexpected keyword argument provider_name"⟩

/-- The `/generate-video` request body (main.py 93-97). -/
structure VideoGenerationRequest where
  prompt : String
  aspect_ratio : String
  resolution : String
  provider : Option String
  deriving DecidableEq

/-- Response of the `/generate-video` handler: the placeholder body
(`status: pending / Video generation queued / type: placeholder`), the result
of an actual `provider.generate_video` call, or an HTTP error. -/
inductive VideoResponse where
  | placeholder
  | vendorResult (body : String)
  | httpError (status : Nat) (detail : String)
  deriving DecidableEq

/-- The `/generate-video` handler (main.py 391-421).  No resolvable provider
yields the placeholder body.  Otherwise the handler evaluates
`provider.generate_video(...)`: attribute lookup on the adapter resolves
through its class and `BaseAIProvider`; a miss raises AttributeError, which
the except clause maps to a 500 `Video generation failed: ...`. -/
def generate_video_endpoint (m : AIProviderManager)
    (req : VideoGenerationRequest) : VideoResponse :=
  match m.get_video_provider req.provider with
  | none => VideoResponse.placeholder
  | some provider =>
    if adapterHasMethod provider.cls "generate_video" then
      VideoResponse.vendorResult ""
    else
      VideoResponse.httpError 500
        ("Video generation failed: " ++ provider.cls.pyName ++
          " object has no attribute generate_video")

/-- An uploaded file as the `/upload` handler sees it: filename, declared
content type, and the raw bytes. -/
structure UploadedFile where
  filename : String
  content_type : String
  contents : List Nat
  deriving DecidableEq

/-- The `/upload` handler (main.py 425-458).  For `text/plain` and
`application/pdf` content types it attempts a UTF-8 decode of the bytes and
stores the first 5000 characters under `doc-<filename>-<timestamp>`; the
inner bare `except: pass` silently discards decode failures.  The handler
returns the success body in every case. -/
def upload_file (store : MemoryStore) (file : UploadedFile) (now : String) :
    MemoryStore × HttpResponse :=
  let store2 :=
    if file.content_type = "text/plain" ∨ file.content_type = "application/pdf" then
      match pyDecodeUtf8 file.contents with
      | some text_content =>
        store_memory store ("doc-" ++ file.filename ++ "-" ++ now)
          (pyTake text_content 5000)
          [("filename", some file.filename), ("type", some "document")] now
      | none => store
    else store
  (store2, ⟨200, "File " ++ file.filename ++ " uploaded successfully"⟩)

/-! ## Spec-side formulations and concrete fixtures -/

/-- What the explicit-name branch of every capability lookup actually
computes (the amended form of the spec's no-substitution invariant): the
named adapter when configured and available; otherwise fall back to the
primary adapter when the name is unconfigured; an unavailable named-or-
primary adapter falls through to the capability's default selection `d`;
`none` without fallback only when neither the name nor a primary resolves. -/
def explicitResolve (m : AIProviderManager) (n : String)
    (d : Option Adapter) : Option Adapter :=
  match m.providers.lookup n with
  | some p => if p.available then some p else d
  | none =>
    match primaryLookup m with
    | some q => if q.available then some q else d
    | none => none

/-- The default-path contract as the spec words it: the first adapter in the
preference order that is configured, taking the first whose probe succeeds. -/
def specFirstAvailable (m : AIProviderManager) (order : List String) : Option Adapter :=
  (order.filterMap (fun n => m.providers.lookup n)).find? (fun p => p.available)

/-- A candidate name that is absent from the configured providers or whose
adapter is unavailable. -/
def candidateDead (m : AIProviderManager) (n : String) : Bool :=
  match m.providers.lookup n with
  | some p => !p.available
  | none => true

/-- Every candidate in the preference order is absent or unavailable. -/
def allCandidatesDead (m : AIProviderManager) (order : List String) : Bool :=
  order.all (candidateDead m)

/-- Voice preference order as the candidates appear in `get_voice_provider`:
elevenlabs first, then the `huggingface or openai` chain. -/
def voicePreferenceOrder : List String := ["elevenlabs", "huggingface", "openai"]

/-- Environment with only `OPENAI_API_KEY` set and no explicit primary. -/
def envOpenAIOnly : Env :=
  ⟨false, true, false, false, false, true, true, true, true, true,
   true, true, true, true, none⟩

/-- Manager with an unavailable openai adapter and an available gemini one. -/
def mgrOpenAIDownGeminiUp : AIProviderManager :=
  ⟨[("openai", ⟨.openai, false⟩), ("gemini", ⟨.gemini, true⟩)], some "gemini"⟩

/-- Manager with only an available gemini adapter. -/
def mgrGeminiUp : AIProviderManager :=
  ⟨[("gemini", ⟨.gemini, true⟩)], some "gemini"⟩

/-- The record the test suite ingests (test_api.py 106-110). -/
def exampleRecord : MemoryRecord :=
  ⟨"This is a test memory for AuraAI testing.", [("test", some "True")], "t0",
   "This is a test memory for AuraAI testing."⟩

/-- Two plain records used by the delete example. -/
def recordAlpha : MemoryRecord := ⟨"alpha", [], "t1", "alpha"⟩

/-- Second plain record used by the delete example. -/
def recordBeta : MemoryRecord := ⟨"beta", [], "t2", "beta"⟩

/-- A chat request whose single user message is longer than 20 characters. -/
def reqLongMessage : ChatRequest :=
  ⟨[⟨"user", "This message has over twenty chars"⟩], none, false, false, "English", none⟩

/-- A chat request whose single user message is 8 characters long. -/
def reqShortMessage : ChatRequest :=
  ⟨[⟨"user", "hi there"⟩], none, false, false, "English", none⟩

/-- A plain-text upload whose bytes are the ASCII encoding of `hello`. -/
def fileGood : UploadedFile := ⟨"notes.txt", "text/plain", [104, 101, 108, 108, 111]⟩

/-- A plain-text upload whose single byte `0xFF` is not valid UTF-8. -/
def fileBad : UploadedFile := ⟨"junk.bin", "text/plain", [255]⟩

/-- A concrete video-generation request with no provider override. -/
def reqVideo : VideoGenerationRequest := ⟨"A cat jumping over a fence", "16:9", "1080p", none⟩

/-! ## Helper lemmas -/

/-- The preference loop returns the first configured-and-available adapter. -/
lemma firstAvailable_eq_spec (m : AIProviderManager) (order : List String) :
    firstAvailable m order = specFirstAvailable m order := by
  induction order with
  | nil => rfl
  | cons n rest ih =>
    simp only [firstAvailable, specFirstAvailable, List.filterMap_cons]
    cases h : m.providers.lookup n with
    | none => simpa [specFirstAvailable] using ih
    | some p =>
      by_cases hp : p.available
      · simp [List.find?_cons, hp]
      · simpa [List.find?_cons, hp, specFirstAvailable] using ih

/-- The spec-side selection is `none` exactly when every candidate is absent
or unavailable. -/
lemma specFirstAvailable_eq_none_iff (m : AIProviderManager) (order : List String) :
    specFirstAvailable m order = none ↔ allCandidatesDead m order = true := by
  unfold specFirstAvailable allCandidatesDead
  rw [List.find?_eq_none, List.all_eq_true]
  constructor
  · intro h n hn
    unfold candidateDead
    cases hl : m.providers.lookup n with
    | none => rfl
    | some p =>
      have hp : p ∈ order.filterMap (fun n => m.providers.lookup n) :=
        List.mem_filterMap.mpr ⟨n, hn, hl⟩
      simpa using h p hp
  · intro h p hp
    obtain ⟨n, hn, hl⟩ := List.mem_filterMap.mp hp
    have := h n hn
    unfold candidateDead at this
    rw [hl] at this
    simpa using this

/-- A key outside the mapped firsts of an association list has no binding. -/
lemma lookup_eq_none_of_not_mem {α β : Type} [BEq α] [LawfulBEq α]
    (l : List (α × β)) (k : α) (h : k ∉ l.map Prod.fst) : l.lookup k = none := by
  induction l with
  | nil => rfl
  | cons kv rest ih =>
    simp only [List.map_cons, List.mem_cons] at h
    push_neg at h
    have hk : (k == kv.1) = false := by
      simpa [beq_iff_eq] using h.1
    simp [List.lookup, hk, ih h.2]

/-- With no huggingface entry, the voice default walks its candidates exactly
as the first-available scan over the voice preference order. -/
lemma voiceDefault_eq_spec (m : AIProviderManager)
    (hf : m.providers.lookup "huggingface" = none) :
    voiceDefault m = specFirstAvailable m voicePreferenceOrder := by
  unfold voiceDefault specFirstAvailable voicePreferenceOrder
  rw [hf]
  simp only [List.filterMap_cons, hf]
  cases hel : m.providers.lookup "elevenlabs" with
  | some candidate =>
    by_cases hc : candidate.available
    · simp [List.find?_cons, hc]
    · cases hop : m.providers.lookup "openai" with
      | some p =>
        by_cases hp : p.available <;> simp [List.find?_cons, hc, hp]
      | none => simp [List.find?_cons, hc]
  | none =>
    cases hop : m.providers.lookup "openai" with
    | some p =>
      by_cases hp : p.available <;> simp [List.find?_cons, hp]
    | none => simp

/-- The video default is the first-available scan over the gemini-only list. -/
lemma videoDefault_eq_spec (m : AIProviderManager) :
    videoDefault m = specFirstAvailable m ["gemini"] := by
  unfold videoDefault specFirstAvailable
  cases h : m.providers.lookup "gemini" with
  | some candidate =>
    by_cases hc : candidate.available <;> simp [List.filterMap_cons, List.find?_cons, hc, h]
  | none => simp [List.filterMap_cons, h]

/-- `initialize_providers` only ever registers the four non-voice vendors:
the elevenlabs block dies on the missing enum member and nothing writes a
huggingface entry. -/
lemma init_providers_keys (env : Env) (k : String)
    (hk : k ∈ (init_providers env).providers.map Prod.fst) :
    k ∈ (["gemini", "openai", "anthropic", "stability"] : List String) := by
  rcases env with ⟨gk, ok, ak, sk, ek, om, am, gc, oc, ac, ga, oa, aa, sa, pe⟩
  unfold init_providers at hk
  dsimp only at hk
  split at hk <;> split at hk <;> split at hk <;> split at hk <;> simp_all <;> tauto

/-- The explicit-name branch shared by all four capability lookups, for a
truthy name: `get_provider` resolution followed by the availability test,
falling through to the capability default `d`. -/
lemma explicit_branch_eq (m : AIProviderManager) (n : String) (hn : n ≠ "")
    (d : Option Adapter) :
    (match m.get_provider (some n) with
     | Except.ok p => if p.available then some p else d
     | Except.error _ => none) = explicitResolve m n d := by
  unfold AIProviderManager.get_provider explicitResolve namedLookup
  simp only [if_neg hn]
  cases h : m.providers.lookup n with
  | some p => simp
  | none =>
    cases h2 : primaryLookup m with
    | some q => simp
    | none => simp

/-- The accumulation loop of `search_memory` collects exactly the texts of
the matching records, in store order. -/
lemma search_foldl_eq (ql : String) (store : MemoryStore) (acc : List String) :
    store.foldl
      (fun acc kv => if recordMatches ql kv.2 then acc ++ [kv.2.text] else acc) acc
      = acc ++ (store.filter (fun kv => recordMatches ql kv.2)).map (fun kv => kv.2.text) := by
  induction store generalizing acc with
  | nil => simp
  | cons kv rest ih =>
    simp only [List.foldl_cons, List.filter_cons]
    by_cases h : recordMatches ql kv.2
    · simp [h, ih]
    · simp [h, ih]

/-! ## Claim theorems -/

/-- C1 counterexample: with only openai configured (hence primary), an
explicit request for the unconfigured provider anthropic does not return
"no provider" — `get_text_provider` silently substitutes the openai adapter
through the primary fallback of `get_provider`, contradicting the claim that
an unconfigured explicit name yields `None` and never another vendor. -/
theorem explicit_name_substituted_counterexample :
    (init_providers envOpenAIOnly).providers.lookup "anthropic" = none ∧
    (init_providers envOpenAIOnly).get_text_provider (some "anthropic") =
      some ⟨ProviderClass.openai, true⟩ := by
  decide

/-- C1 (amended): for every capability lookup with a truthy explicit name,
the result is `explicitResolve`: the named adapter when configured and
available; the primary adapter when the name is unconfigured and the primary
is available; a fall-through to the capability's default selection when the
named-or-primary adapter is unavailable; and `None` exactly when neither the
name nor a primary resolves to a configured adapter. -/
theorem explicit_lookup_characterization (m : AIProviderManager) (n : String)
    (hn : n ≠ "") :
    m.get_text_provider (some n) =
      explicitResolve m n (firstAvailable m textPreferenceOrder) ∧
    m.get_image_provider (some n) =
      explicitResolve m n (firstAvailable m imagePreferenceOrder) ∧
    m.get_voice_provider (some n) = explicitResolve m n (voiceDefault m) ∧
    m.get_video_provider (some n) = explicitResolve m n (videoDefault m) := by
  refine ⟨?_, ?_, ?_, ?_⟩
  · show (if n = "" then _ else _) = _
    rw [if_neg hn]
    exact explicit_branch_eq m n hn _
  · show (if n = "" then _ else _) = _
    rw [if_neg hn]
    exact explicit_branch_eq m n hn _
  · show (if n = "" then _ else _) = _
    rw [if_neg hn]
    exact explicit_branch_eq m n hn _
  · show (if n = "" then _ else _) = _
    rw [if_neg hn]
    exact explicit_branch_eq m n hn _

/-- Witness for the amended C1 at a concrete reachable state: the explicit
request for anthropic against the openai-only manager resolves per
`explicitResolve` (to the substituted primary adapter). -/
theorem explicit_lookup_characterization_witness :
    (init_providers envOpenAIOnly).get_text_provider (some "anthropic") =
      some ⟨ProviderClass.openai, true⟩ :=
  ((explicit_lookup_characterization (init_providers envOpenAIOnly) "anthropic"
    (by decide)).1).trans (by decide)

/-- C2: with no explicit provider name, each capability lookup returns the
first configured-and-available adapter of its fixed preference order (text:
openai, anthropic, gemini; image: stability, openai, gemini; video: gemini
alone), and returns `None` exactly when every candidate is absent or
unavailable.  The voice lookup follows its order (elevenlabs, huggingface,
openai) on every state without a huggingface entry — and `initialize_providers`
can never register one, as the final conjunct shows. -/
theorem default_lookup_first_available (m : AIProviderManager) :
    (m.get_text_provider none = specFirstAvailable m textPreferenceOrder) ∧
    (m.get_text_provider none = none ↔ allCandidatesDead m textPreferenceOrder = true) ∧
    (m.get_image_provider none = specFirstAvailable m imagePreferenceOrder) ∧
    (m.get_image_provider none = none ↔ allCandidatesDead m imagePreferenceOrder = true) ∧
    (m.get_video_provider none = specFirstAvailable m ["gemini"]) ∧
    (m.get_video_provider none = none ↔ allCandidatesDead m ["gemini"] = true) ∧
    ("huggingface" ∉ m.providers.map Prod.fst →
      (m.get_voice_provider none = specFirstAvailable m voicePreferenceOrder) ∧
      (m.get_voice_provider none = none ↔
        allCandidatesDead m voicePreferenceOrder = true)) ∧
    (∀ env : Env, "huggingface" ∉ (init_providers env).providers.map Prod.fst) := by
  have htext : m.get_text_provider none = specFirstAvailable m textPreferenceOrder :=
    firstAvailable_eq_spec m textPreferenceOrder
  have himage : m.get_image_provider none = specFirstAvailable m imagePreferenceOrder :=
    firstAvailable_eq_spec m imagePreferenceOrder
  have hvideo : m.get_video_provider none = specFirstAvailable m ["gemini"] :=
    videoDefault_eq_spec m
  refine ⟨htext, ?_, himage, ?_, hvideo, ?_, ?_, ?_⟩
  · rw [htext]; exact specFirstAvailable_eq_none_iff m textPreferenceOrder
  · rw [himage]; exact specFirstAvailable_eq_none_iff m imagePreferenceOrder
  · rw [hvideo]; exact specFirstAvailable_eq_none_iff m ["gemini"]
  · intro hf
    have hl : m.providers.lookup "huggingface" = none :=
      lookup_eq_none_of_not_mem m.providers "huggingface" hf
    have hv : m.get_voice_provider none = specFirstAvailable m voicePreferenceOrder :=
      voiceDefault_eq_spec m hl
    exact ⟨hv, by rw [hv]; exact specFirstAvailable_eq_none_iff m voicePreferenceOrder⟩
  · intro env hmem
    have := init_providers_keys env "huggingface" hmem
    simp at this

/-- Witness for C2 at a concrete state (openai configured but down, gemini
configured and up): the text lookup skips the dead openai candidate and the
absent anthropic one and selects gemini, and the voice lookup (huggingface
absent) returns `None` since all its candidates are dead. -/
theorem default_lookup_first_available_witness :
    mgrOpenAIDownGeminiUp.get_text_provider none =
      some ⟨ProviderClass.gemini, true⟩ ∧
    mgrOpenAIDownGeminiUp.get_voice_provider none = none := by
  refine ⟨?_, ?_⟩
  · exact ((default_lookup_first_available mgrOpenAIDownGeminiUp).1).trans (by decide)
  · exact (((default_lookup_first_available mgrOpenAIDownGeminiUp).2.2.2.2.2.2.1
      (by decide)).2).mpr (by decide)

/-- C3: memory search equals its spec formulation — the space-joined
concatenation of the first `top_k` stored texts, in store insertion order,
whose lowercased text contains some whitespace-separated word of the
lowercased query as a substring; an empty store and a query matching no
record both yield the empty string. -/
theorem search_memory_spec (store : MemoryStore) (query : String) (top_k : Nat) :
    search_memory store query top_k = searchSpec store query top_k ∧
    search_memory ([] : MemoryStore) query top_k = "" ∧
    ((∀ kv ∈ store, recordMatches (pyLower query) kv.2 = false) →
      search_memory store query top_k = "") := by
  have hmain : ∀ s : MemoryStore, search_memory s query top_k = searchSpec s query top_k := by
    intro s
    cases s with
    | nil => simp [search_memory, searchSpec, pyJoinSpace]
    | cons kv rest =>
      simp only [search_memory, searchSpec, List.isEmpty_cons, Bool.false_eq_true,
        if_false, search_foldl_eq, List.nil_append]
  refine ⟨hmain store, rfl, ?_⟩
  intro h
  rw [hmain store]
  unfold searchSpec
  have hfilter : store.filter (fun kv => recordMatches (pyLower query) kv.2) = [] := by
    rw [List.filter_eq_nil_iff]
    intro kv hkv
    simp [h kv hkv]
  rw [hfilter]
  simp [pyJoinSpace]

/-- Witness for C3: searching `test memory` over the test suite's single
record returns that record's text, and a query matching nothing returns the
empty string. -/
theorem search_memory_spec_witness :
    search_memory [("test-memory-1", exampleRecord)] "test memory" 3 =
      "This is a test memory for AuraAI testing." ∧
    search_memory [("test-memory-1", exampleRecord)] "zzzz" 3 = "" := by
  constructor
  · exact ((search_memory_spec [("test-memory-1", exampleRecord)] "test memory" 3).1).trans
      (by decide)
  · exact (search_memory_spec [("test-memory-1", exampleRecord)] "zzzz" 3).2.2 (by decide)

/-- C4 evaluation: deleting a present id removes exactly that record (the
rest unchanged, size down by one) with a success body; deleting an absent id
leaves the store unchanged but surfaces HTTP 500 with detail
`Memory deletion failed: 404: Memory not found` — the handler's own
`except Exception` catches the 404 `HTTPException` it just raised and
re-wraps it as an internal error, so the claimed not-found failure never
reaches the client as such. -/
theorem delete_memory_behavior :
    delete_memory [("a", recordAlpha), ("b", recordBeta)] "missing" =
      ([("a", recordAlpha), ("b", recordBeta)],
        ⟨500, "Memory deletion failed: 404: Memory not found"⟩) ∧
    delete_memory [("a", recordAlpha), ("b", recordBeta)] "a" =
      ([("b", recordBeta)], ⟨200, "Memory deleted: a"⟩) := by
  decide

/-- C5 counterexample: the OpenAI adapter's `generate_text`, on a vendor call
that succeeds with empty content, returns that empty content unchanged — not
the `No response generated` placeholder the claim promises for every
text-capable adapter. -/
theorem openai_empty_content_counterexample :
    OpenAIProvider.generate_text (OpenAIVendorResult.success [some ""]) =
      Except.ok (some "") ∧
    (some "" : Option String) ≠ some "No response generated" :=
  ⟨rfl, by decide⟩

/-- C5 (amended): only the Gemini adapter substitutes the placeholder
`No response generated` when the vendor call succeeds with empty (or null)
content; the OpenAI and Anthropic adapters return the successful content
unchanged, empty or not. -/
theorem empty_content_placeholder_gemini_only :
    (∀ t : String, t ≠ "" →
      GeminiProvider.generate_text (GeminiVendorResult.success (some t)) =
        Except.ok t) ∧
    GeminiProvider.generate_text (GeminiVendorResult.success (some "")) =
      Except.ok "No response generated" ∧
    GeminiProvider.generate_text (GeminiVendorResult.success none) =
      Except.ok "No response generated" ∧
    (∀ (c : Option String) (rest : List (Option String)),
      OpenAIProvider.generate_text (OpenAIVendorResult.success (c :: rest)) =
        Except.ok c) ∧
    (∀ (t : String) (rest : List String),
      AnthropicProvider.generate_text (AnthropicVendorResult.success (t :: rest)) =
        Except.ok t) := by
  refine ⟨?_, rfl, rfl, fun c rest => rfl, fun t rest => rfl⟩
  intro t ht
  simp [GeminiProvider.generate_text, ht]

/-- Witness for the amended C5: Gemini passes nonempty content through. -/
theorem empty_content_placeholder_gemini_only_witness :
    GeminiProvider.generate_text (GeminiVendorResult.success (some "hello")) =
      Except.ok "hello" :=
  empty_content_placeholder_gemini_only.1 "hello" (by decide)

/-- C6: after a successful chat generation, when the request carries messages
and the timestamped key is fresh, exactly one new record — whose text equals
the last message's content — is appended to the memory store when that
content is strictly longer than 20 characters, and the store is unchanged
when it is 20 characters or shorter. -/
theorem chat_autocommit_threshold (store : MemoryStore) (history : List ChatEntry)
    (req : ChatRequest) (resp now : String) (lastMsg : MessageRequest)
    (hlast : req.messages.getLast? = some lastMsg)
    (hfresh : store.lookup ("chat-" ++ now) = none) :
    (pyLen lastMsg.content > 20 →
      (chat store history req (Except.ok resp) now).1 =
        store ++ [("chat-" ++ now,
          ⟨lastMsg.content,
           [("role", some "user"), ("language", some req.target_language),
            ("provider", req.provider)], now, lastMsg.content⟩)]) ∧
    (pyLen lastMsg.content ≤ 20 →
      (chat store history req (Except.ok resp) now).1 = store) := by
  constructor
  · intro h
    simp only [chat, hlast, if_pos h, store_memory, hfresh, Option.isSome_none,
      Bool.false_eq_true, if_false]
  · intro h
    have h2 : ¬ pyLen lastMsg.content > 20 := by omega
    simp only [chat, hlast, if_neg h2]

/-- Witness for C6: a 34-character message is committed as the single new
record; an 8-character message leaves the store empty. -/
theorem chat_autocommit_threshold_witness :
    (chat [] [] reqLongMessage (Except.ok "ok") "123").1 =
      [("chat-123",
        ⟨"This message has over twenty chars",
         [("role", some "user"), ("language", some "English"), ("provider", none)],
         "123", "This message has over twenty chars"⟩)] ∧
    (chat [] [] reqShortMessage (Except.ok "ok") "123").1 = [] := by
  constructor
  · exact ((chat_autocommit_threshold [] [] reqLongMessage "ok" "123"
      ⟨"user", "This message has over twenty chars"⟩ (by decide) rfl).1
        (by decide)).trans (by decide)
  · exact (chat_autocommit_threshold [] [] reqShortMessage "ok" "123"
      ⟨"user", "hi there"⟩ (by decide) rfl).2 (by decide)

/-- C7: an upload with a plain-text or PDF content type and a fresh document
key stores exactly one new record holding the first 5000 characters of the
decoded text when the bytes are valid UTF-8, and stores nothing when the
decode fails; the handler returns the success body in both cases. -/
theorem upload_decode_and_truncate (store : MemoryStore) (file : UploadedFile)
    (now : String)
    (hct : file.content_type = "text/plain" ∨ file.content_type = "application/pdf")
    (hfresh : store.lookup ("doc-" ++ file.filename ++ "-" ++ now) = none) :
    (∀ t, pyDecodeUtf8 file.contents = some t →
      upload_file store file now =
        (store ++ [("doc-" ++ file.filename ++ "-" ++ now,
          ⟨pyTake t 5000,
           [("filename", some file.filename), ("type", some "document")], now,
           pyTake t 5000⟩)],
         ⟨200, "File " ++ file.filename ++ " uploaded successfully"⟩)) ∧
    (pyDecodeUtf8 file.contents = none →
      upload_file store file now =
        (store, ⟨200, "File " ++ file.filename ++ " uploaded successfully"⟩)) := by
  constructor
  · intro t ht
    simp only [upload_file, if_pos hct, ht, store_memory, hfresh, Option.isSome_none,
      Bool.false_eq_true, if_false]
  · intro ht
    simp only [upload_file, if_pos hct, ht]

/-- Witness for C7: the ASCII bytes of `hello` produce one record with text
`hello`; the invalid byte `0xFF` produces none, with success either way. -/
theorem upload_decode_and_truncate_witness :
    upload_file [] fileGood "t" =
      ([("doc-notes.txt-t",
        ⟨"hello", [("filename", some "notes.txt"), ("type", some "document")],
         "t", "hello"⟩)],
       ⟨200, "File notes.txt uploaded successfully"⟩) ∧
    upload_file [] fileBad "t" =
      ([], ⟨200, "File junk.bin uploaded successfully"⟩) := by
  constructor
  · exact ((upload_decode_and_truncate [] fileGood "t" (Or.inl rfl) rfl).1 "hello"
      (by decide)).trans (by decide)
  · exact ((upload_decode_and_truncate [] fileBad "t" (Or.inl rfl) rfl).2
      (by decide)).trans (by decide)

/-- C8: for every environment, module initialization of the backend
constructs the manager (every per-vendor failure is swallowed) and then dies
on `provider_manager.is_any_provider_available()`: no class in the codebase
defines that method, so startup raises AttributeError before any request is
served, regardless of which providers are configured. -/
theorem startup_always_raises_attribute_error (env : Env) :
    backendStartup env =
      StartupOutcome.raised (PyError.attributeError
        "AIProviderManager object has no attribute is_any_provider_available") := by
  rfl

/-- Witness for C8 at a concrete environment. -/
theorem startup_always_raises_attribute_error_witness :
    backendStartup envOpenAIOnly =
      StartupOutcome.raised (PyError.attributeError
        "AIProviderManager object has no attribute is_any_provider_available") :=
  startup_always_raises_attribute_error envOpenAIOnly

/-- C9: every request to the synthesize endpoint fails: the handler passes
the keyword argument `provider_name`, which `generate_synthesis` does not
accept, so the call raises TypeError and the client always receives the 500
`Synthesis failed` response — never a synthesis result. -/
theorem synthesize_always_type_errors (req : SynthesisRequest)
    (synthesisResult : String) :
    synthesize req synthesisResult =
      ⟨500, "Synthesis failed: generate_synthesis() got an unexpected keyword argument provider_name"⟩ := by
  rfl

/-- Witness for C9 at a concrete request. -/
theorem synthesize_always_type_errors_witness :
    synthesize ⟨"Some document", "English", none⟩ "unused" =
      ⟨500, "Synthesis failed: generate_synthesis() got an unexpected keyword argument provider_name"⟩ :=
  synthesize_always_type_errors ⟨"Some document", "English", none⟩ "unused"

/-- C10: whenever the video lookup resolves a provider, the endpoint dies on
`provider.generate_video` — no adapter class (nor the base class) defines
that method — and the client receives the 500 `Video generation failed`
response; with no resolvable provider the placeholder body is returned; a
successful non-placeholder video response is unreachable for every manager
state and request. -/
theorem generate_video_unreachable_success (m : AIProviderManager)
    (req : VideoGenerationRequest) :
    (∀ p, m.get_video_provider req.provider = some p →
      generate_video_endpoint m req =
        VideoResponse.httpError 500
          ("Video generation failed: " ++ p.cls.pyName ++
            " object has no attribute generate_video")) ∧
    (m.get_video_provider req.provider = none →
      generate_video_endpoint m req = VideoResponse.placeholder) ∧
    (∀ body, generate_video_endpoint m req ≠ VideoResponse.vendorResult body) := by
  have hmeth : ∀ cls : ProviderClass, adapterHasMethod cls "generate_video" = false := by
    intro cls; cases cls <;> decide
  refine ⟨?_, ?_, ?_⟩
  · intro p hp
    simp only [generate_video_endpoint, hp, hmeth, Bool.false_eq_true, if_false]
  · intro hp
    simp only [generate_video_endpoint, hp]
  · intro body
    unfold generate_video_endpoint
    cases hp : m.get_video_provider req.provider with
    | none => simp
    | some p => simp [hmeth]

/-- Witness for C10: with an available gemini adapter the video endpoint
resolves a provider and returns the 500 attribute-error response. -/
theorem generate_video_unreachable_success_witness :
    generate_video_endpoint mgrGeminiUp reqVideo =
      VideoResponse.httpError 500
        "Video generation failed: GeminiProvider object has no attribute generate_video" :=
  ((generate_video_unreachable_success mgrGeminiUp reqVideo).1
    ⟨ProviderClass.gemini, true⟩ (by decide)).trans (by decide)

end AuraAI
